import Mathlib

/-!
Shallow embedding of the analytics-badge service (src/badge.go) in Lean 4,
covering the metric-resolution pipeline (`badge`), the OAuth token helpers
(`GetToken` / `SetToken`), and the pure badge-layout functions
(`metric`, `size`, and the parameter geometry).

External collaborators (memcache, datastore, the analytics API and the
auto-refreshing OAuth transport) are modelled as explicit inputs: the stores
as association lists inside a `World`, the fetch as an oracle value
`FetchOutcome` that carries both the returned total string and the credential
as it stands after the call (the transport may refresh it in place), and the
fallibility of the two writes as two booleans.  Every externally visible
action of the handler is recorded in an event trace, including each
`c.Errorf` log call, so that claims about logging and about which stores are
touched can be stated.
-/

/-- `oauth.Token`: access token, refresh token, expiry.  Expiry is modelled
as an integer timestamp. -/
structure Token where
  AccessToken : String
  RefreshToken : String
  Expiry : Int
deriving DecidableEq, Repr

/-- The `Account` record from src/badge.go. -/
structure Account where
  Username : String
  AccessToken : String
  RefreshToken : String
  Expiry : Int
deriving DecidableEq, Repr

/-- `func (a *Account) GetToken() *oauth.Token` (src/badge.go lines 26-35):
`nil` when the access token is empty. -/
def Account.GetToken (a : Account) : Option Token :=
  if a.AccessToken = "" then none
  else some ⟨a.AccessToken, a.RefreshToken, a.Expiry⟩

/-- `func (a *Account) SetToken(t *oauth.Token)` (src/badge.go lines 37-43):
three sequential assignments, the middle one guarded on a non-empty
refresh token. -/
def Account.SetToken (a : Account) (t : Token) : Account :=
  let a1 : Account := { a with AccessToken := t.AccessToken }
  let a2 : Account :=
    if t.RefreshToken ≠ "" then { a1 with RefreshToken := t.RefreshToken } else a1
  { a2 with Expiry := t.Expiry }

/-- The `Property` record from src/badge.go; the owning account's datastore
key is modelled as the account's username string. -/
structure Property where
  Account : String
  Id : String
  Profile : String
deriving DecidableEq, Repr

/-- `strconv.Itoa` on the values this program produces: the decimal
representation of an integer, with a leading minus sign when negative. -/
def itoa (i : Int) : String := toString i

/-- Digit run for `atoi`: all characters must be decimal digits and at least
one must be present, as in `strconv.Atoi` (base 10, no underscores). -/
def parseDigits (l : List Char) : Option Nat :=
  if l = [] then none
  else if l.all Char.isDigit then
    some (l.foldl (fun a c => a * 10 + (c.toNat - 48)) 0)
  else none

/-- `strconv.Atoi`: optional single leading sign, then a non-empty digit run.
Overflow is not modelled (values here are small counts). -/
def atoi (s : String) : Option Int :=
  match s.data with
  | [] => none
  | '+' :: rest => (parseDigits rest).map Int.ofNat
  | '-' :: rest => (parseDigits rest).map (fun n => -(Int.ofNat n))
  | l => (parseDigits l).map Int.ofNat

/-- `func metric(i int) (string, string)` (src/badge.go lines 251-259):
magnitude string and color.  Go integer division truncates toward zero,
hence `Int.tdiv`. -/
def metric (i : Int) : String × String :=
  if i > 1000000 then (itoa (i.tdiv 1000000) ++ "M", "#4c1")
  else if i > 1000 then (itoa (i.tdiv 1000) ++ "k", "#a4a61d")
  else (itoa i, "#e05d44")

/-- The `+4` bucket of `size` (src/badge.go line 268); `Char.ofNat 92` is the
backslash character. -/
def mediumNarrowChars : List Char := [';', 'I', Char.ofNat 92, 'f', 'j', 'l', 'r', 't']

/-- The `+6` bucket of `size` (src/badge.go line 270); `Char.ofNat 96` is the
backquote character. -/
def sixPointChars : List Char :=
  ['1', '3', '5', '7', '9', ':', '?', 'E', 'F', 'J', 'P', 'T', 'Z', '[', ']',
   Char.ofNat 96, 'b', 'c', 'd', 'g', 'k', 'o', 'p', 's', 'v', 'y']

/-- The `+7` bucket of `size` (src/badge.go line 272). -/
def klChars : List Char := ['K', 'L']

/-- The `+10` bucket of `size` (src/badge.go line 274). -/
def wideChars : List Char := ['<', '>', '@', 'G', 'O', 'W', 'm']

/-- Per-character increment of the `switch` in `size` (src/badge.go
lines 265-278), cases tried in source order. -/
def charWidth (c : Char) : Nat :=
  if c = 'i' then 2
  else if c ∈ mediumNarrowChars then 4
  else if c ∈ sixPointChars then 6
  else if c ∈ klChars then 7
  else if c ∈ wideChars then 10
  else 8

/-- `func size(s string) int` (src/badge.go lines 261-281): base 10 plus a
per-character increment, folding over the string's characters. -/
def size (s : String) : Nat :=
  s.data.foldl (fun r c => r + charWidth c) 10

/-- The anonymous parameter struct built by `badge` (src/badge.go
lines 339-357). -/
structure Params where
  Color : String
  Left : String
  Right : String
  LeftWidth : Nat
  RightWidth : Nat
  LeftCenter : Nat
  RightCenter : Nat
  Total : Nat
deriving DecidableEq, Repr

/-- The layout computation of `badge` (src/badge.go lines 338-357), a pure
function of the resolved metric integer. -/
def badgeParams (total : Int) : Params :=
  let nc := metric total
  let left := "users"
  let right := nc.1 ++ "/week"
  let lw := size left
  let rw := size right
  { Color := nc.2
    Left := left
    Right := right
    LeftWidth := lw
    RightWidth := rw
    LeftCenter := lw / 2 + 1
    RightCenter := lw + rw / 2 - 1
    Total := lw + rw }

/-- `r.URL.Path[7 : len(r.URL.Path)-4]` (src/badge.go line 285).  A Go slice
`s[7 : n-4]` is legal iff `7 ≤ n - 4` computed in `int` arithmetic; otherwise
the program panics, modelled as `none`. -/
def extractPropertyId (p : String) : Option String :=
  if (7 : Int) ≤ (p.length : Int) - 4 then
    some (String.mk ((p.data.take (p.length - 4)).drop 7))
  else none

/-- The error cases of the `badge` handler's resolution path, one per early
`return` in src/badge.go lines 287-323. -/
inductive BadgeError where
  | dataCorruption (raw : String)
  | propertyNotFound (id : String)
  | accountNotFound (key : String)
  | clientInitFailure
  | upstreamFailure
  | totalParseFailure (raw : String)
deriving DecidableEq, Repr

/-- Outcome of a resolution: the metric integer, or the error that aborted
it. -/
inductive RResult where
  | ok (total : Int)
  | err (e : BadgeError)
deriving DecidableEq, Repr

/-- Externally visible actions of the handler, in program order: fast-cache
reads and writes, durable-store reads and writes, the external analytics
call, and each `c.Errorf` log line. -/
inductive Event where
  | cacheGet (key : String)
  | cacheSet (key value : String) (ttl : Nat)
  | dsGet (kind key : String)
  | dsPut (kind key : String)
  | apiFetch (ids : String)
  | logErr (msg : String)
deriving DecidableEq, Repr

/-- Durable-store accesses (datastore.Get / datastore.Put). -/
def Event.isDurable : Event → Bool
  | .dsGet _ _ => true
  | .dsPut _ _ => true
  | _ => false

/-- External analytics-API calls. -/
def Event.isApi : Event → Bool
  | .apiFetch _ => true
  | _ => false

/-- Fast-cache writes (memcache.Set). -/
def Event.isCacheWrite : Event → Bool
  | .cacheSet _ _ _ => true
  | _ => false

/-- Log lines (c.Errorf). -/
def Event.isLog : Event → Bool
  | .logErr _ => true
  | _ => false

/-- The two shared stores as the handler sees them: the fast cache maps a
key to a value and the TTL it was stored with, the durable store maps a
property id to a `Property` and an account key to an `Account`. -/
structure World where
  cache : List (String × String × Nat)
  props : List (String × Property)
  accounts : List (String × Account)
deriving DecidableEq, Repr

/-- A successful external fetch: the `TotalsForAllResults` string for
`ga:users`, and the transport's credential as it stands after the call
(the OAuth transport may have refreshed it in place). -/
structure FetchOk where
  total : String
  token : Token
deriving DecidableEq, Repr

/-- Oracle for the external call on the cache-miss path: `analytics.New`
fails, the `Data.Ga.Get` call fails, or the call succeeds. -/
inductive FetchOutcome where
  | clientErr
  | fetchErr
  | ok (r : FetchOk)
deriving DecidableEq, Repr

/-- Result of one resolution: the outcome, the stores after the request,
and the trace of externally visible actions. -/
structure ResolveOut where
  result : RResult
  world : World
  events : List Event
deriving DecidableEq, Repr

/-- `time.Hour * 12`, in seconds: the fast-cache TTL used by `badge`
(src/badge.go line 327). -/
def twelveHours : Nat := 12 * 60 * 60

/-- The metric-resolution body of `badge` (src/badge.go lines 286-337):
fast-cache lookup; on hit, parse-or-fail; on miss, Property and Account
loads, the external fetch, the fast-cache write (failure logged,
non-fatal), `SetToken`, and the conditional datastore.Put whose error is
assigned but never logged or checked (line 335). -/
def resolve (pid : String) (w : World) (fetch : FetchOutcome)
    (cacheSetOk putOk : Bool) : ResolveOut :=
  match w.cache.lookup ("b:" ++ pid) with
  | some v =>
      match atoi v.1 with
      | some total => ⟨.ok total, w, [.cacheGet ("b:" ++ pid)]⟩
      | none =>
          ⟨.err (.dataCorruption v.1), w,
            [.cacheGet ("b:" ++ pid), .logErr "badge(Memcache read) error"]⟩
  | none =>
      match w.props.lookup pid with
      | none =>
          ⟨.err (.propertyNotFound pid), w,
            [.cacheGet ("b:" ++ pid), .dsGet "Property" pid,
             .logErr "badge(Property) error"]⟩
      | some p =>
          match w.accounts.lookup p.Account with
          | none =>
              ⟨.err (.accountNotFound p.Account), w,
                [.cacheGet ("b:" ++ pid), .dsGet "Property" pid,
                 .dsGet "Account" p.Account, .logErr "badge(Account) error"]⟩
          | some a =>
              match fetch with
              | .clientErr =>
                  ⟨.err .clientInitFailure, w,
                    [.cacheGet ("b:" ++ pid), .dsGet "Property" pid,
                     .dsGet "Account" p.Account, .logErr "badge error"]⟩
              | .fetchErr =>
                  ⟨.err .upstreamFailure, w,
                    [.cacheGet ("b:" ++ pid), .dsGet "Property" pid,
                     .dsGet "Account" p.Account, .apiFetch ("ga:" ++ p.Profile),
                     .logErr "badge(Data) error"]⟩
              | .ok r =>
                  match atoi r.total with
                  | none =>
                      ⟨.err (.totalParseFailure r.total), w,
                        [.cacheGet ("b:" ++ pid), .dsGet "Property" pid,
                         .dsGet "Account" p.Account, .apiFetch ("ga:" ++ p.Profile),
                         .logErr "badge(Total) error"]⟩
                  | some total =>
                      let cache2 :=
                        if cacheSetOk then ("b:" ++ pid, itoa total, twelveHours) :: w.cache
                        else w.cache
                      let evCache :=
                        if cacheSetOk then ([] : List Event)
                        else [Event.logErr "badge(Memcache) error"]
                      let a2 := Account.SetToken a r.token
                      if a2 ≠ a then
                        ⟨.ok total,
                         ⟨cache2, w.props,
                          if putOk then (p.Account, a2) :: w.accounts else w.accounts⟩,
                         [Event.cacheGet ("b:" ++ pid), .dsGet "Property" pid,
                          .dsGet "Account" p.Account, .apiFetch ("ga:" ++ p.Profile),
                          .cacheSet ("b:" ++ pid) (itoa total) twelveHours] ++ evCache
                          ++ [Event.dsPut "Account" p.Account]⟩
                      else
                        ⟨.ok total, ⟨cache2, w.props, w.accounts⟩,
                         [Event.cacheGet ("b:" ++ pid), .dsGet "Property" pid,
                          .dsGet "Account" p.Account, .apiFetch ("ga:" ++ p.Profile),
                          .cacheSet ("b:" ++ pid) (itoa total) twelveHours] ++ evCache⟩

/-- `func badge(w http.ResponseWriter, r *http.Request)` (src/badge.go
lines 283-361): extract the property id from the URL path (`none` models
the slice-bounds panic), resolve, and on success render the SVG parameters;
on a resolution error no body is emitted. -/
def badge (urlPath : String) (w : World) (fetch : FetchOutcome)
    (cacheSetOk putOk : Bool) : Option (ResolveOut × Option Params) :=
  match extractPropertyId urlPath with
  | none => none
  | some pid =>
      let out := resolve pid w fetch cacheSetOk putOk
      match out.result with
      | .err _ => some (out, none)
      | .ok total => some (out, some (badgeParams total))

/-- Sample account used in concrete runs. -/
def sampleAccount : Account := ⟨"alice", "old-access", "r0", 0⟩

/-- A refreshed credential whose refresh token is empty and whose access
token differs from `sampleAccount`'s. -/
def refreshedToken : Token := ⟨"new-access", "", 1⟩

/-- Sample registered property owned by `sampleAccount`. -/
def sampleProperty : Property := ⟨"alice", "p1", "123"⟩

/-- World with an empty fast cache and one registered property: forces the
miss path for `"p1"`. -/
def missWorld : World := ⟨[], [("p1", sampleProperty)], [("alice", sampleAccount)]⟩

/-- World whose fast cache already holds `"b:p1" = "42"`. -/
def hitWorld : World := ⟨[("b:p1", "42", 100)], [], []⟩

/-- World whose fast cache holds a non-numeric value under `"b:p2"`. -/
def corruptWorld : World := ⟨[("b:p2", "not-a-number", 50)], [], []⟩

/-- Folding the per-character widths starting from `r` adds the sum of the
per-character increments. -/
theorem size_foldl_eq (l : List Char) (r : Nat) :
    l.foldl (fun a c => a + charWidth c) r = r + (l.map charWidth).sum := by
  induction l generalizing r with
  | nil => simp
  | cons c t ih =>
      simp only [List.foldl_cons, List.map_cons, List.sum_cons, ih]
      omega

/-- C5: `metric` picks exactly one of three buckets by strict comparisons
with truncating integer division: above 1,000,000 the "M" bucket with color
#4c1, above 1,000 the "k" bucket with color #a4a61d, otherwise the decimal
string with color #e05d44; 1,000,000 and 1,000 fall into the lower bucket,
1,000,001 gives "1M", 1500 gives "1k", 999 gives "999". -/
theorem metric_bucket_spec :
    (∀ i : Int, 1000000 < i → metric i = (itoa (i.tdiv 1000000) ++ "M", "#4c1")) ∧
    (∀ i : Int, i ≤ 1000000 → 1000 < i → metric i = (itoa (i.tdiv 1000) ++ "k", "#a4a61d")) ∧
    (∀ i : Int, i ≤ 1000 → metric i = (itoa i, "#e05d44")) ∧
    metric 1000000 = ("1000k", "#a4a61d") ∧
    metric 1000 = ("1000", "#e05d44") ∧
    metric 1000001 = ("1M", "#4c1") ∧
    metric 1500 = ("1k", "#a4a61d") ∧
    metric 999 = ("999", "#e05d44") := by
  refine ⟨?_, ?_, ?_, by decide, by decide, by decide, by decide, by decide⟩
  · intro i h
    simp only [metric, gt_iff_lt, if_pos h]
  · intro i h1 h2
    simp only [metric, gt_iff_lt]
    rw [if_neg (by omega), if_pos h2]
  · intro i h
    simp only [metric, gt_iff_lt]
    rw [if_neg (by omega), if_neg (by omega)]

/-- C5 witness: the theorem applied at 2,000,000. -/
theorem metric_bucket_spec_witness :
    1000000 < (2000000 : Int) ∧
    metric 2000000 = (itoa ((2000000 : Int).tdiv 1000000) ++ "M", "#4c1") :=
  ⟨by decide, metric_bucket_spec.1 2000000 (by decide)⟩

/-- C10: `metric` is total on all integers: whenever n ≤ 1000 — in
particular for every negative n — it returns the plain decimal string of n
with color #e05d44, with no clamping to zero; concretely
`metric (-5) = ("-5", "#e05d44")`. -/
theorem metric_total_on_negatives :
    (∀ n : Int, n ≤ 1000 → metric n = (itoa n, "#e05d44")) ∧
    metric (-5) = ("-5", "#e05d44") := by
  refine ⟨?_, by decide⟩
  intro n h
  simp only [metric, gt_iff_lt]
  rw [if_neg (by omega), if_neg (by omega)]

/-- C10 witness: the theorem applied at -5. -/
theorem metric_total_on_negatives_witness :
    (-5 : Int) ≤ 1000 ∧ metric (-5) = (itoa (-5), "#e05d44") :=
  ⟨by decide, metric_total_on_negatives.1 (-5) (by decide)⟩

/-- C6: `size` is 10 plus a fixed per-character increment drawn from the
five bucket tables and an 8-pixel default; it is a pure function of the
characters, `size "" = 10`, and any string containing 'W' measures at least
10 over the base. -/
theorem size_table_spec :
    (∀ s : String, size s = 10 + (s.data.map charWidth).sum) ∧
    charWidth 'i' = 2 ∧
    (∀ c ∈ mediumNarrowChars, charWidth c = 4) ∧
    (∀ c ∈ sixPointChars, charWidth c = 6) ∧
    charWidth 'K' = 7 ∧
    charWidth 'L' = 7 ∧
    (∀ c ∈ wideChars, charWidth c = 10) ∧
    (∀ c : Char, c ≠ 'i' → c ∉ mediumNarrowChars → c ∉ sixPointChars →
      c ∉ klChars → c ∉ wideChars → charWidth c = 8) ∧
    size "" = 10 ∧
    (∀ s : String, 'W' ∈ s.data → 10 + 10 ≤ size s) := by
  refine ⟨fun s => size_foldl_eq s.data 10, by decide, by decide, by decide,
    by decide, by decide, by decide, ?_, by decide, ?_⟩
  · intro c h1 h2 h3 h4 h5
    simp [charWidth, h1, h2, h3, h4, h5]
  · intro s hW
    have h1 : charWidth 'W' ∈ s.data.map charWidth := List.mem_map_of_mem _ hW
    have h2 : charWidth 'W' ≤ (s.data.map charWidth).sum :=
      List.single_le_sum (fun x _ => Nat.zero_le x) _ h1
    have h3 : size s = 10 + (s.data.map charWidth).sum := size_foldl_eq s.data 10
    have h4 : charWidth 'W' = 10 := by decide
    omega

/-- C6 witness: the theorem applied to the string "W/week". -/
theorem size_table_spec_witness :
    'W' ∈ ("W/week" : String).data ∧ 10 + 10 ≤ size "W/week" :=
  ⟨by decide, size_table_spec.2.2.2.2.2.2.2.2.2 "W/week" (by decide)⟩

/-- C7: the badge layout has left label "users", right label
`(metric n).1 ++ "/week"`, widths given by `size` of the two labels, total
width the sum of the two widths, left center `leftWidth/2 + 1` and right
center `leftWidth + rightWidth/2 - 1`, with integer division. -/
theorem badgeParams_geometry (n : Int) :
    (badgeParams n).Left = "users" ∧
    (badgeParams n).Right = (metric n).1 ++ "/week" ∧
    (badgeParams n).Color = (metric n).2 ∧
    (badgeParams n).LeftWidth = size (badgeParams n).Left ∧
    (badgeParams n).RightWidth = size (badgeParams n).Right ∧
    (badgeParams n).Total = (badgeParams n).LeftWidth + (badgeParams n).RightWidth ∧
    (badgeParams n).LeftCenter = (badgeParams n).LeftWidth / 2 + 1 ∧
    (badgeParams n).RightCenter =
      (badgeParams n).LeftWidth + (badgeParams n).RightWidth / 2 - 1 :=
  ⟨rfl, rfl, rfl, rfl, rfl, rfl, rfl, rfl⟩

/-- C8: `SetToken` overwrites the access token and expiry unconditionally
and the refresh token only when the new credential's refresh token is
non-empty; an empty new refresh token leaves the account's refresh token
unchanged.  The username is never touched. -/
theorem setToken_spec :
    (∀ (a : Account) (t : Token),
      (a.SetToken t).AccessToken = t.AccessToken ∧
      (a.SetToken t).Expiry = t.Expiry ∧
      (a.SetToken t).Username = a.Username) ∧
    (∀ (a : Account) (t : Token), t.RefreshToken ≠ "" →
      (a.SetToken t).RefreshToken = t.RefreshToken) ∧
    (∀ (a : Account) (t : Token), t.RefreshToken = "" →
      (a.SetToken t).RefreshToken = a.RefreshToken) := by
  refine ⟨fun a t => ?_, fun a t h => ?_, fun a t h => ?_⟩
  · simp only [Account.SetToken]
    split <;> simp
  · simp only [Account.SetToken, if_pos h]
  · simp [Account.SetToken, h]

/-- C8 witness: the theorem applied to a concrete account and a refreshed
credential with an empty refresh token. -/
theorem setToken_spec_witness :
    Token.RefreshToken ⟨"new", "", 5⟩ = "" ∧
    (Account.SetToken ⟨"alice", "old", "r0", 0⟩ ⟨"new", "", 5⟩).RefreshToken =
      Account.RefreshToken ⟨"alice", "old", "r0", 0⟩ :=
  ⟨rfl, setToken_spec.2.2 ⟨"alice", "old", "r0", 0⟩ ⟨"new", "", 5⟩ rfl⟩

/-- C2: when the fast cache holds a value for `"b:" + pid` that parses as an
integer, `resolve` returns that integer with the stores untouched, and its
trace contains no durable-store access, no external-API call and no
fast-cache write. -/
theorem resolve_cache_hit_spec (pid : String) (w : World) (fetch : FetchOutcome)
    (cacheSetOk putOk : Bool) (v : String) (ttl : Nat) (total : Int)
    (hc : w.cache.lookup ("b:" ++ pid) = some (v, ttl))
    (hv : atoi v = some total) :
    resolve pid w fetch cacheSetOk putOk =
      ⟨.ok total, w, [.cacheGet ("b:" ++ pid)]⟩ ∧
    ∀ e ∈ (resolve pid w fetch cacheSetOk putOk).events,
      e.isDurable = false ∧ e.isApi = false ∧ e.isCacheWrite = false := by
  have h1 : resolve pid w fetch cacheSetOk putOk =
      ⟨.ok total, w, [.cacheGet ("b:" ++ pid)]⟩ := by
    simp [resolve, hc, hv]
  refine ⟨h1, ?_⟩
  rw [h1]
  intro e he
  simp only [List.mem_singleton] at he
  subst he
  exact ⟨rfl, rfl, rfl⟩

/-- C2 witness: the theorem applied to `hitWorld`, whose cache maps
`"b:p1"` to `"42"`. -/
theorem resolve_cache_hit_spec_witness :
    hitWorld.cache.lookup ("b:" ++ "p1") = some ("42", 100) ∧
    resolve "p1" hitWorld .clientErr true true =
      ⟨.ok 42, hitWorld, [.cacheGet ("b:" ++ "p1")]⟩ :=
  ⟨by decide,
   (resolve_cache_hit_spec "p1" hitWorld .clientErr true true "42" 100 42
      (by decide) (by decide)).1⟩

/-- C3: when the fast cache holds a value for `"b:" + pid` that does not
parse as an integer, `resolve` reports cache corruption, leaves the stores
untouched, performs no durable-store access and no external-API call, and
the badge request emits no image body. -/
theorem resolve_corrupt_cache_spec (pid : String) (w : World)
    (fetch : FetchOutcome) (cacheSetOk putOk : Bool) (v : String) (ttl : Nat)
    (hc : w.cache.lookup ("b:" ++ pid) = some (v, ttl))
    (hv : atoi v = none) :
    (resolve pid w fetch cacheSetOk putOk).result = .err (.dataCorruption v) ∧
    (resolve pid w fetch cacheSetOk putOk).world = w ∧
    (∀ e ∈ (resolve pid w fetch cacheSetOk putOk).events,
      e.isDurable = false ∧ e.isApi = false ∧ e.isCacheWrite = false) ∧
    ∀ urlPath, extractPropertyId urlPath = some pid →
      badge urlPath w fetch cacheSetOk putOk =
        some (resolve pid w fetch cacheSetOk putOk, none) := by
  have h1 : resolve pid w fetch cacheSetOk putOk =
      ⟨.err (.dataCorruption v), w,
        [.cacheGet ("b:" ++ pid), .logErr "badge(Memcache read) error"]⟩ := by
    simp [resolve, hc, hv]
  refine ⟨by rw [h1], by rw [h1], ?_, ?_⟩
  · rw [h1]
    intro e he
    simp only [List.mem_cons, List.mem_singleton, List.not_mem_nil, or_false] at he
    rcases he with he | he <;> subst he <;> exact ⟨rfl, rfl, rfl⟩
  · intro urlPath hu
    simp [badge, hu, h1]

/-- C3 witness: the theorem applied to `corruptWorld` under the request
path "/badge/p2.svg". -/
theorem resolve_corrupt_cache_spec_witness :
    corruptWorld.cache.lookup ("b:" ++ "p2") = some ("not-a-number", 50) ∧
    atoi "not-a-number" = none ∧
    (resolve "p2" corruptWorld .clientErr true true).result =
      .err (.dataCorruption "not-a-number") ∧
    badge "/badge/p2.svg" corruptWorld .clientErr true true =
      some (resolve "p2" corruptWorld .clientErr true true, none) :=
  ⟨by decide, by decide,
   (resolve_corrupt_cache_spec "p2" corruptWorld .clientErr true true
      "not-a-number" 50 (by decide) (by decide)).1,
   (resolve_corrupt_cache_spec "p2" corruptWorld .clientErr true true
      "not-a-number" 50 (by decide) (by decide)).2.2.2 "/badge/p2.svg" (by decide)⟩

/-- C4: with no fast-cache entry and no Property record, `resolve` reports
an unknown property, leaves the stores untouched, writes nothing to the
fast cache, and the badge request emits no image body. -/
theorem resolve_unknown_property_spec (pid : String) (w : World)
    (fetch : FetchOutcome) (cacheSetOk putOk : Bool)
    (hc : w.cache.lookup ("b:" ++ pid) = none)
    (hp : w.props.lookup pid = none) :
    (resolve pid w fetch cacheSetOk putOk).result = .err (.propertyNotFound pid) ∧
    (resolve pid w fetch cacheSetOk putOk).world = w ∧
    (∀ e ∈ (resolve pid w fetch cacheSetOk putOk).events, e.isCacheWrite = false) ∧
    ∀ urlPath, extractPropertyId urlPath = some pid →
      badge urlPath w fetch cacheSetOk putOk =
        some (resolve pid w fetch cacheSetOk putOk, none) := by
  have h1 : resolve pid w fetch cacheSetOk putOk =
      ⟨.err (.propertyNotFound pid), w,
        [.cacheGet ("b:" ++ pid), .dsGet "Property" pid,
         .logErr "badge(Property) error"]⟩ := by
    simp [resolve, hc, hp]
  refine ⟨by rw [h1], by rw [h1], ?_, ?_⟩
  · rw [h1]
    intro e he
    simp only [List.mem_cons, List.mem_singleton, List.not_mem_nil, or_false] at he
    rcases he with he | he | he <;> subst he <;> rfl
  · intro urlPath hu
    simp [badge, hu, h1]

/-- C4 witness: the theorem applied to `missWorld` and the unregistered id
"ghost" under the request path "/badge/ghost.svg". -/
theorem resolve_unknown_property_spec_witness :
    missWorld.cache.lookup ("b:" ++ "ghost") = none ∧
    missWorld.props.lookup "ghost" = none ∧
    (resolve "ghost" missWorld .clientErr true true).result =
      .err (.propertyNotFound "ghost") ∧
    badge "/badge/ghost.svg" missWorld .clientErr true true =
      some (resolve "ghost" missWorld .clientErr true true, none) :=
  ⟨by decide, by decide,
   (resolve_unknown_property_spec "ghost" missWorld .clientErr true true
      (by decide) (by decide)).1,
   (resolve_unknown_property_spec "ghost" missWorld .clientErr true true
      (by decide) (by decide)).2.2.2 "/badge/ghost.svg" (by decide)⟩

/-- C1 counterexample: a concrete miss-path run in which the fetch succeeds,
the refreshed credential differs from the snapshot, and the datastore.Put
fails, yet the trace contains no log line at all (the Put's error is
assigned and dropped at src/badge.go line 335): "persist failure is logged"
is false, while the metric is still returned and the failed write leaves
the account store unchanged. -/
theorem resolve_persist_failure_unlogged_cex :
    (resolve "p1" missWorld (.ok ⟨"7", refreshedToken⟩) true false).result = .ok 7 ∧
    Account.SetToken sampleAccount refreshedToken ≠ sampleAccount ∧
    (resolve "p1" missWorld (.ok ⟨"7", refreshedToken⟩) true false).world.accounts =
      missWorld.accounts ∧
    Event.dsPut "Account" "alice" ∈
      (resolve "p1" missWorld (.ok ⟨"7", refreshedToken⟩) true false).events ∧
    (resolve "p1" missWorld (.ok ⟨"7", refreshedToken⟩) true false).events.filter
      Event.isLog = [] := by
  refine ⟨by decide, by decide, by decide, by decide, by decide⟩

/-- Helper: an empty refresh token on the new credential leaves the
account's refresh token unchanged. -/
theorem setToken_preserves_refresh (a : Account) (t : Token)
    (h : t.RefreshToken = "") : (a.SetToken t).RefreshToken = a.RefreshToken := by
  simp [Account.SetToken, h]

/-- C1 (amended): on a fast-cache miss with a successful fetch and parse,
`resolve` writes the metric into the fast cache under `"b:" + pid` with the
12-hour TTL (a cache-write failure is logged and does not affect the
returned metric), compares the possibly-refreshed credential to the
snapshot and persists the updated Account iff they differ — a persist
failure being silently ignored (not logged) and non-fatal — preserves the
old refresh token when the refreshed credential's refresh token is empty,
and returns the fetched integer. -/
theorem resolve_miss_success_spec (pid : String) (w : World)
    (fetch : FetchOutcome) (cacheSetOk putOk : Bool) (p : Property)
    (a : Account) (r : FetchOk) (total : Int)
    (hc : w.cache.lookup ("b:" ++ pid) = none)
    (hp : w.props.lookup pid = some p)
    (ha : w.accounts.lookup p.Account = some a)
    (hf : fetch = .ok r)
    (ht : atoi r.total = some total) :
    (resolve pid w fetch cacheSetOk putOk).result = .ok total ∧
    Event.cacheSet ("b:" ++ pid) (itoa total) twelveHours ∈
      (resolve pid w fetch cacheSetOk putOk).events ∧
    (cacheSetOk = true →
      (resolve pid w fetch cacheSetOk putOk).world.cache =
        ("b:" ++ pid, itoa total, twelveHours) :: w.cache) ∧
    (cacheSetOk = false →
      (resolve pid w fetch cacheSetOk putOk).world.cache = w.cache ∧
      Event.logErr "badge(Memcache) error" ∈
        (resolve pid w fetch cacheSetOk putOk).events) ∧
    (Account.SetToken a r.token ≠ a →
      Event.dsPut "Account" p.Account ∈
        (resolve pid w fetch cacheSetOk putOk).events ∧
      (putOk = true →
        (resolve pid w fetch cacheSetOk putOk).world.accounts =
          (p.Account, Account.SetToken a r.token) :: w.accounts) ∧
      (putOk = false →
        (resolve pid w fetch cacheSetOk putOk).world.accounts = w.accounts)) ∧
    (Account.SetToken a r.token = a →
      (resolve pid w fetch cacheSetOk putOk).world.accounts = w.accounts ∧
      ∀ k1 k2, Event.dsPut k1 k2 ∉ (resolve pid w fetch cacheSetOk putOk).events) ∧
    (r.token.RefreshToken = "" →
      (Account.SetToken a r.token).RefreshToken = a.RefreshToken) ∧
    ((resolve pid w fetch cacheSetOk putOk).events.filter Event.isLog =
      if cacheSetOk then [] else [Event.logErr "badge(Memcache) error"]) := by
  subst hf
  have hr : r.token.RefreshToken = "" →
      (Account.SetToken a r.token).RefreshToken = a.RefreshToken :=
    setToken_preserves_refresh a r.token
  by_cases hEq : Account.SetToken a r.token = a <;>
    cases cacheSetOk <;> cases putOk <;>
      simp [resolve, hc, hp, ha, ht, hEq, Event.isLog, hr] <;> exact hr

/-- C1 witness: the amended theorem applied to `missWorld` with both writes
succeeding. -/
theorem resolve_miss_success_spec_witness :
    (resolve "p1" missWorld (.ok ⟨"7", refreshedToken⟩) true true).result = .ok 7 ∧
    Event.cacheSet ("b:" ++ "p1") (itoa 7) twelveHours ∈
      (resolve "p1" missWorld (.ok ⟨"7", refreshedToken⟩) true true).events :=
  ⟨(resolve_miss_success_spec "p1" missWorld (.ok ⟨"7", refreshedToken⟩) true true
      sampleProperty sampleAccount ⟨"7", refreshedToken⟩ 7
      (by decide) (by decide) (by decide) rfl (by decide)).1,
   (resolve_miss_success_spec "p1" missWorld (.ok ⟨"7", refreshedToken⟩) true true
      sampleProperty sampleAccount ⟨"7", refreshedToken⟩ 7
      (by decide) (by decide) (by decide) rfl (by decide)).2.1⟩

/-- C9: the handler slices the URL path as `path[7 : len(path)-4]`
unconditionally: any path of the form `pre ++ mid ++ suf` with `pre` of
length 7 and `suf` of length 4 yields `mid` — the last four characters are
removed whether or not they are ".svg" — and any path shorter than 11
characters makes the slice bounds invalid, so the handler panics (modelled
as `none`) instead of returning an error. -/
theorem path_slice_spec :
    (∀ urlPath : String, urlPath.length < 11 →
      extractPropertyId urlPath = none ∧
      ∀ w fetch cacheSetOk putOk,
        badge urlPath w fetch cacheSetOk putOk = none) ∧
    (∀ pre mid suf : List Char, pre.length = 7 → suf.length = 4 →
      extractPropertyId (String.mk (pre ++ (mid ++ suf))) = some (String.mk mid)) := by
  constructor
  · intro urlPath h
    have he : extractPropertyId urlPath = none := by
      rw [extractPropertyId, if_neg (by omega)]
    exact ⟨he, fun w fetch cacheSetOk putOk => by simp [badge, he]⟩
  · intro pre mid suf hpre hsuf
    have hlen : (String.mk (pre ++ (mid ++ suf))).length =
        pre.length + (mid.length + suf.length) := by
      simp [String.length]
    rw [extractPropertyId, if_pos (by rw [hlen]; omega)]
    have hdata : (String.mk (pre ++ (mid ++ suf))).data = (pre ++ mid) ++ suf := by
      simp
    have hcut : (String.mk (pre ++ (mid ++ suf))).length - 4 = (pre ++ mid).length := by
      rw [hlen]
      simp only [hpre, hsuf, List.length_append]
      omega
    rw [hdata, hcut, List.take_left, ← hpre, List.drop_left]

/-- C9 witness: the theorem applied to the short path "/short" (length 6,
panic) and to the split "/badge/" ++ "x" ++ ".png" (a non-".svg" suffix is
still removed). -/
theorem path_slice_spec_witness :
    ("/short" : String).length < 11 ∧
    extractPropertyId "/short" = none ∧
    badge "/short" missWorld .clientErr true true = none ∧
    extractPropertyId
        (String.mk (("/badge/" : String).data ++
          (("x" : String).data ++ ((".png" : String).data)))) =
      some (String.mk ("x" : String).data) :=
  ⟨by decide,
   (path_slice_spec.1 "/short" (by decide)).1,
   (path_slice_spec.1 "/short" (by decide)).2 missWorld .clientErr true true,
   path_slice_spec.2 ("/badge/" : String).data ("x" : String).data
     (".png" : String).data (by decide) (by decide)⟩
